import Mathlib

/-!
Verification development for the ffmpeg helper modules
`plugins.v2/ffmpegthumb2/ffmpeg_helper.py` (class `FfmpegHelper2`) and
`plugins.v2/ffmpegthumbfree/ffmpeg_helper.py` (class `FfmpegHelper`).

Modelling conventions of the shallow embedding:
* Python floats are modelled as exact rationals (`ℚ`); the timestamps involved
  are ordinary second counts and all arithmetic performed by the code
  (`max`, subtraction) is modelled exactly.
* A command line is a `List Tok`; a token is either a literal string piece
  (`Tok.s`) or a numeric argument produced by Python's `str(float)`
  (`Tok.n`, carrying the exact value instead of its decimal rendering).
* The outside world (child processes) is an oracle
  `world : List Tok → ℤ → ProcOutcome` mapping a command and a timeout to
  the observed outcome: normal completion with a return code and captured
  stdout/stderr, a `subprocess.TimeoutExpired`, or any other spawn/launch
  exception.  `shutil.which` is an oracle `String → Option String`,
  `SystemUtils.execute` an oracle `String → Bool` (the truthiness of its
  result), and the bare `subprocess.run(command).returncode` used by the
  non-optimized extraction branches an oracle `List Tok → Int`.
* Each helper function additionally returns the trace of the commands it
  handed to the outside world, in order, so that "no process is spawned" is
  the statement that the trace is empty.
-/

/-- A command-line token: a literal string, or a numeric argument
(the embedded image of Python's `str(<float>)`). -/
inductive Tok
  | s : String → Tok
  | n : ℚ → Tok
deriving DecidableEq, Repr

/-- Outcome of one `subprocess.run(command, ..., timeout=timeout)` call:
the process finished with a return code and captured stdout/stderr, or the
call raised `TimeoutExpired`, or it raised some other (launch) exception. -/
inductive ProcOutcome
  | exited : Int → String → String → ProcOutcome
  | timedOut : ProcOutcome
  | excn : ProcOutcome
deriving DecidableEq, Repr

/-- One externally executed command, as recorded in a trace:
`legacy` is the shell string handed to `SystemUtils.execute`,
`proc` an argument list run through the `_run_cmd` wrapper with a timeout,
`raw` an argument list run through a bare `subprocess.run` without timeout. -/
inductive Cmd
  | legacy : String → Cmd
  | proc : List Tok → ℤ → Cmd
  | raw : List Tok → Cmd
deriving DecidableEq, Repr

/-- Model of Python's `str.split(sep)` for a one-character separator,
on the character list of the string.  `splitOnChar c [] = [[]]`, matching
`"".split(':') == ['']`. -/
def splitOnChar (c : Char) : List Char → List (List Char)
  | [] => [[]]
  | x :: xs =>
    if x = c then [] :: splitOnChar c xs
    else match splitOnChar c xs with
      | [] => [[x]]
      | h :: t => (x :: h) :: t

/-- Numeric value of a digit string, most significant digit first. -/
def digitsToNat (l : List Char) : ℕ :=
  l.foldl (fun a c => 10 * a + (c.toNat - 48)) 0

/-- Decidable core of the model of Python's builtin `float`: parse a plain
decimal literal (optional sign, then `digits`, `digits.digits`, `digits.` or
`.digits`, at least one digit overall) into a signed mantissa and a decimal
exponent, so that the value is `mantissa / 10 ^ exponent`.  `none` where
`float` raises `ValueError`.  (Python additionally strips whitespace and
accepts exponents, underscores and `inf`/`nan`; those spellings never occur
in the timestamp strings this code is documented to take and are not
modelled.) -/
def pyFloatParts? (cs : List Char) : Option (ℤ × ℕ) :=
  let sgn : ℤ := match cs with | '-' :: _ => -1 | _ => 1
  let body : List Char := match cs with | '-' :: r => r | '+' :: r => r | r => r
  let ip := body.takeWhile Char.isDigit
  let rest := body.dropWhile Char.isDigit
  match rest with
  | [] => if ip.isEmpty then none else some (sgn * digitsToNat ip, 0)
  | '.' :: fp =>
    if fp.all Char.isDigit && !(ip.isEmpty && fp.isEmpty) then
      some (sgn * digitsToNat (ip ++ fp), fp.length)
    else none
  | _ => none

/-- The rational value of a parsed decimal literal. -/
def pyDecVal (p : ℤ × ℕ) : ℚ := (p.1 : ℚ) / (10 : ℚ) ^ p.2

/-- Model of Python's builtin `float(s)` (on the character list of `s`):
the exact rational value of the literal, or `none` where `float` raises. -/
def pyFloat? (cs : List Char) : Option ℚ := (pyFloatParts? cs).map pyDecVal

/-- Python truthiness of an `Optional[str]`: `None` and `""` are falsy. -/
def pyTruthy : Option String → Bool
  | none => false
  | some s => s != ""

/-- The default used by both `get_thumb` variants:
`if not frames: frames = "00:03:01"` (`None` and `""` are falsy). -/
def effFrames : Option String → String
  | none => "00:03:01"
  | some f => if f = "" then "00:03:01" else f

/-- The optimized single precise-seek command (`-ss` after `-i`), shared
shape of the unparseable-timestamp command, the degenerate-plan command and
the fallback command in both `get_thumb` variants.  The `ss` token is
`Tok.s frames` on the unparseable branch and `Tok.n secs` elsewhere. -/
def optPreciseTokens (video_path image_path : String) (ss : Tok) (threads : ℤ) : List Tok :=
  [Tok.s "ffmpeg", Tok.s "-hide_banner", Tok.s "-loglevel", Tok.s "error",
   Tok.s "-nostdin", Tok.s "-y",
   Tok.s "-i", Tok.s video_path,
   Tok.s "-ss", ss,
   Tok.s "-vframes", Tok.s "1",
   Tok.s "-q:v", Tok.s "2",
   Tok.s "-threads", Tok.s (toString threads),
   Tok.s image_path]

/-- The two-stage seek command of both `get_thumb` variants: coarse `-ss`
before `-i`, fine `-ss` after `-i`. -/
def twoStageTokens (video_path image_path : String) (preseek_secs delta : ℚ) (threads : ℤ) : List Tok :=
  [Tok.s "ffmpeg", Tok.s "-hide_banner", Tok.s "-loglevel", Tok.s "error",
   Tok.s "-nostdin", Tok.s "-y",
   Tok.s "-ss", Tok.n preseek_secs,
   Tok.s "-i", Tok.s video_path,
   Tok.s "-ss", Tok.n delta,
   Tok.s "-vframes", Tok.s "1",
   Tok.s "-q:v", Tok.s "2",
   Tok.s "-threads", Tok.s (toString threads),
   Tok.s image_path]

/-- The `ffprobe` command of both `get_metadata` variants. -/
def metadataTokens (video_path : String) : List Tok :=
  [Tok.s "ffprobe", Tok.s "-v", Tok.s "quiet", Tok.s "-print_format",
   Tok.s "json", Tok.s "-show_format", Tok.s "-show_streams", Tok.s video_path]

/-- The numeric values of `-ss` arguments of a command: every `Tok.n v`
immediately preceded by the literal token `-ss`. -/
def ssNumVals : List Tok → List ℚ
  | [] => []
  | [_] => []
  | a :: b :: rest =>
    match a, b with
    | Tok.s fl, Tok.n v =>
      if fl = "-ss" then v :: ssNumVals (b :: rest) else ssNumVals (b :: rest)
    | _, _ => ssNumVals (b :: rest)

namespace Ffmpegthumb2

/-- Embeds `_time_str_to_seconds` of `ffmpegthumb2/ffmpeg_helper.py`:
split on `:`, convert every part with `float`, fold left with
`seconds = seconds * 60 + p`; any conversion failure yields `None`. -/
def _time_str_to_seconds (time_str : String) : Option ℚ :=
  match (splitOnChar ':' time_str.toList).mapM pyFloat? with
  | none => none
  | some parts => some (parts.foldl (fun seconds p => seconds * 60 + p) 0)

/-- Embeds `FfmpegHelper2._run_cmd`: run the command with a timeout and
return `True` iff the return code is 0; `TimeoutExpired` and every other
exception are caught and yield `False` (after printing a diagnostic). -/
def runCommand (world : List Tok → ℤ → ProcOutcome) (command : List Tok) (timeout : ℤ) : Bool :=
  match world command timeout with
  | ProcOutcome.exited returncode _ _ => returncode == 0
  | ProcOutcome.timedOut => false
  | ProcOutcome.excn => false

/-- The legacy (non-optimized) thumbnail command string of
`FfmpegHelper2.get_thumb`, handed to `SystemUtils.execute`. -/
def legacyThumbCmd (video_path frames image_path : String) : String :=
  "ffmpeg -i \"" ++ video_path ++ "\" -ss " ++ frames ++
    " -vframes 1 -f image2 \"" ++ image_path ++ "\""

/-- Embeds `FfmpegHelper2.get_thumb`.  Returns the boolean result paired
with the trace of externally executed commands.  Oracles: `world` for
`_run_cmd`'s `subprocess.run`, `which` for `shutil.which`, `envOptEnabled`
for `_env_opt_enabled()`, `sysExecute` for the truthiness of
`SystemUtils.execute`. -/
def FfmpegHelper2.get_thumb (world : List Tok → ℤ → ProcOutcome)
    (which : String → Option String) (envOptEnabled : Bool) (sysExecute : String → Bool)
    (video_path image_path : String) (frames? : Option String)
    (threads : ℤ) (preseek_offset : ℚ) (timeout : ℤ)
    (enable_optimizations? : Option Bool) : Bool × List Cmd :=
  let frames := effFrames frames?
  if video_path = "" ∨ image_path = "" then (false, [])
  else
    let enable_optimizations := enable_optimizations?.getD envOptEnabled
    if !pyTruthy (which "ffmpeg") then (false, [])
    else if !enable_optimizations then
      let cmd := legacyThumbCmd video_path frames image_path
      (sysExecute cmd, [Cmd.legacy cmd])
    else
      match _time_str_to_seconds frames with
      | none =>
        let command := optPreciseTokens video_path image_path (Tok.s frames) threads
        (runCommand world command timeout, [Cmd.proc command timeout])
      | some secs =>
        let preseek_secs := max 0 (secs - preseek_offset)
        let delta := secs - preseek_secs
        if preseek_secs ≤ 0 ∨ preseek_offset ≤ 0 then
          let command := optPreciseTokens video_path image_path (Tok.n secs) threads
          (runCommand world command timeout, [Cmd.proc command timeout])
        else
          let command := twoStageTokens video_path image_path preseek_secs delta threads
          let ok := runCommand world command timeout
          if !ok then
            let fallback := optPreciseTokens video_path image_path (Tok.n secs) threads
            (runCommand world fallback timeout,
             [Cmd.proc command timeout, Cmd.proc fallback timeout])
          else
            (true, [Cmd.proc command timeout])

/-- Non-optimized `extract_wav` command without stream selection. -/
def wavPlainTokens (video_path audio_path : String) : List Tok :=
  [Tok.s "ffmpeg", Tok.s "-hide_banner", Tok.s "-loglevel", Tok.s "warning",
   Tok.s "-y", Tok.s "-i", Tok.s video_path,
   Tok.s "-acodec", Tok.s "pcm_s16le", Tok.s "-ac", Tok.s "1",
   Tok.s "-ar", Tok.s "16000", Tok.s audio_path]

/-- Non-optimized `extract_wav` command with `-map 0:a:idx`. -/
def wavMapTokens (video_path audio_path idx : String) : List Tok :=
  [Tok.s "ffmpeg", Tok.s "-hide_banner", Tok.s "-loglevel", Tok.s "warning",
   Tok.s "-y", Tok.s "-i", Tok.s video_path,
   Tok.s "-map", Tok.s ("0:a:" ++ idx),
   Tok.s "-acodec", Tok.s "pcm_s16le", Tok.s "-ac", Tok.s "1",
   Tok.s "-ar", Tok.s "16000", Tok.s audio_path]

/-- Optimized `extract_wav` command: `base` plus optional `-map` plus the
encoding arguments, exactly as the source appends them. -/
def wavOptTokens (video_path audio_path : String) (audio_index : Option String)
    (threads : ℤ) : List Tok :=
  [Tok.s "ffmpeg", Tok.s "-hide_banner", Tok.s "-loglevel", Tok.s "error",
   Tok.s "-nostdin", Tok.s "-y", Tok.s "-i", Tok.s video_path, Tok.s "-vn"] ++
  (match audio_index with
   | some idx => [Tok.s "-map", Tok.s ("0:a:" ++ idx)]
   | none => []) ++
  [Tok.s "-acodec", Tok.s "pcm_s16le", Tok.s "-ac", Tok.s "1",
   Tok.s "-ar", Tok.s "16000", Tok.s "-threads", Tok.s (toString threads),
   Tok.s audio_path]

/-- Embeds `FfmpegHelper2.extract_wav`.  `rawRun` is the oracle for the
bare `subprocess.run(command).returncode` of the non-optimized branch. -/
def FfmpegHelper2.extract_wav (world : List Tok → ℤ → ProcOutcome)
    (rawRun : List Tok → Int) (which : String → Option String) (envOptEnabled : Bool)
    (video_path audio_path : String) (audio_index : Option String)
    (threads : ℤ) (timeout : ℤ) (enable_optimizations? : Option Bool) : Bool × List Cmd :=
  if video_path = "" ∨ audio_path = "" then (false, [])
  else if !pyTruthy (which "ffmpeg") then (false, [])
  else
    let enable_optimizations := enable_optimizations?.getD envOptEnabled
    if !enable_optimizations then
      let command :=
        if pyTruthy audio_index then
          wavMapTokens video_path audio_path (audio_index.getD "")
        else
          wavPlainTokens video_path audio_path
      (rawRun command == 0, [Cmd.raw command])
    else
      let base := wavOptTokens video_path audio_path audio_index threads
      (runCommand world base timeout, [Cmd.proc base timeout])

/-- Embeds `FfmpegHelper2.get_metadata`.  `jsonLoads` is the oracle for
`json.loads` on the decoded stdout (`none` where it raises); the result
type of the parsed JSON is abstract. -/
def FfmpegHelper2.get_metadata {α : Type} (world : List Tok → ℤ → ProcOutcome)
    (which : String → Option String) (jsonLoads : String → Option α)
    (video_path : String) (timeout : ℤ) : Option α :=
  if video_path = "" then none
  else if !pyTruthy (which "ffprobe") then none
  else
    match world (metadataTokens video_path) timeout with
    | ProcOutcome.exited returncode out _ =>
      if returncode = 0 then jsonLoads out else none
    | ProcOutcome.timedOut => none
    | ProcOutcome.excn => none

/-- Non-optimized `extract_subtitle` command without stream selection. -/
def subPlainTokens (video_path subtitle_path : String) : List Tok :=
  [Tok.s "ffmpeg", Tok.s "-hide_banner", Tok.s "-loglevel", Tok.s "warning",
   Tok.s "-y", Tok.s "-i", Tok.s video_path, Tok.s subtitle_path]

/-- Non-optimized `extract_subtitle` command with `-map 0:s:idx`. -/
def subMapTokens (video_path subtitle_path idx : String) : List Tok :=
  [Tok.s "ffmpeg", Tok.s "-hide_banner", Tok.s "-loglevel", Tok.s "warning",
   Tok.s "-y", Tok.s "-i", Tok.s video_path,
   Tok.s "-map", Tok.s ("0:s:" ++ idx),
   Tok.s subtitle_path]

/-- Optimized `extract_subtitle` command with `-map 0:s:idx` and
`-c:s copy`. -/
def subOptMapTokens (video_path subtitle_path idx : String) (threads : ℤ) : List Tok :=
  [Tok.s "ffmpeg", Tok.s "-hide_banner", Tok.s "-loglevel", Tok.s "error",
   Tok.s "-nostdin", Tok.s "-y",
   Tok.s "-i", Tok.s video_path,
   Tok.s "-map", Tok.s ("0:s:" ++ idx),
   Tok.s "-c:s", Tok.s "copy",
   Tok.s "-threads", Tok.s (toString threads),
   Tok.s subtitle_path]

/-- Optimized `extract_subtitle` command without stream selection. -/
def subOptPlainTokens (video_path subtitle_path : String) (threads : ℤ) : List Tok :=
  [Tok.s "ffmpeg", Tok.s "-hide_banner", Tok.s "-loglevel", Tok.s "error",
   Tok.s "-nostdin", Tok.s "-y",
   Tok.s "-i", Tok.s video_path,
   Tok.s "-c:s", Tok.s "copy",
   Tok.s "-threads", Tok.s (toString threads),
   Tok.s subtitle_path]

/-- Embeds `FfmpegHelper2.extract_subtitle`. -/
def FfmpegHelper2.extract_subtitle (world : List Tok → ℤ → ProcOutcome)
    (rawRun : List Tok → Int) (which : String → Option String) (envOptEnabled : Bool)
    (video_path subtitle_path : String) (subtitle_index : Option String)
    (threads : ℤ) (timeout : ℤ) (enable_optimizations? : Option Bool) : Bool × List Cmd :=
  if video_path = "" ∨ subtitle_path = "" then (false, [])
  else if !pyTruthy (which "ffmpeg") then (false, [])
  else
    let enable_optimizations := enable_optimizations?.getD envOptEnabled
    if !enable_optimizations then
      let command :=
        if pyTruthy subtitle_index then
          subMapTokens video_path subtitle_path (subtitle_index.getD "")
        else
          subPlainTokens video_path subtitle_path
      (rawRun command == 0, [Cmd.raw command])
    else
      let command :=
        match subtitle_index with
        | some idx => subOptMapTokens video_path subtitle_path idx threads
        | none => subOptPlainTokens video_path subtitle_path threads
      (runCommand world command timeout, [Cmd.proc command timeout])

end Ffmpegthumb2

namespace Ffmpegthumbfree

/-- Embeds `_time_str_to_seconds` of `ffmpegthumbfree/ffmpeg_helper.py`
(textually identical to the `ffmpegthumb2` copy). -/
def _time_str_to_seconds (time_str : String) : Option ℚ :=
  match (splitOnChar ':' time_str.toList).mapM pyFloat? with
  | none => none
  | some parts => some (parts.foldl (fun seconds p => seconds * 60 + p) 0)

/-- Embeds `FfmpegHelper._run_cmd` of `ffmpegthumbfree/ffmpeg_helper.py`
(textually identical to the `ffmpegthumb2` copy). -/
def runCommand (world : List Tok → ℤ → ProcOutcome) (command : List Tok) (timeout : ℤ) : Bool :=
  match world command timeout with
  | ProcOutcome.exited returncode _ _ => returncode == 0
  | ProcOutcome.timedOut => false
  | ProcOutcome.excn => false

/-- Embeds `FfmpegHelper.get_thumb` of `ffmpegthumbfree/ffmpeg_helper.py`:
the always-optimized variant (no legacy branch, no environment switch). -/
def FfmpegHelper.get_thumb (world : List Tok → ℤ → ProcOutcome)
    (which : String → Option String)
    (video_path image_path : String) (frames? : Option String)
    (threads : ℤ) (preseek_offset : ℚ) (timeout : ℤ) : Bool × List Cmd :=
  let frames := effFrames frames?
  if video_path = "" ∨ image_path = "" then (false, [])
  else if !pyTruthy (which "ffmpeg") then (false, [])
  else
    match _time_str_to_seconds frames with
    | none =>
      let command := optPreciseTokens video_path image_path (Tok.s frames) threads
      (runCommand world command timeout, [Cmd.proc command timeout])
    | some secs =>
      let preseek_secs := max 0 (secs - preseek_offset)
      let delta := secs - preseek_secs
      if preseek_secs ≤ 0 ∨ preseek_offset ≤ 0 then
        let command := optPreciseTokens video_path image_path (Tok.n secs) threads
        (runCommand world command timeout, [Cmd.proc command timeout])
      else
        let command := twoStageTokens video_path image_path preseek_secs delta threads
        let ok := runCommand world command timeout
        if !ok then
          let fallback := optPreciseTokens video_path image_path (Tok.n secs) threads
          (runCommand world fallback timeout,
           [Cmd.proc command timeout, Cmd.proc fallback timeout])
        else
          (true, [Cmd.proc command timeout])

/-- Embeds `FfmpegHelper.get_metadata` of `ffmpegthumbfree/ffmpeg_helper.py`
(textually identical to the `ffmpegthumb2` copy). -/
def FfmpegHelper.get_metadata {α : Type} (world : List Tok → ℤ → ProcOutcome)
    (which : String → Option String) (jsonLoads : String → Option α)
    (video_path : String) (timeout : ℤ) : Option α :=
  if video_path = "" then none
  else if !pyTruthy (which "ffprobe") then none
  else
    match world (metadataTokens video_path) timeout with
    | ProcOutcome.exited returncode out _ =>
      if returncode = 0 then jsonLoads out else none
    | ProcOutcome.timedOut => none
    | ProcOutcome.excn => none

end Ffmpegthumbfree

/-! ### Helper lemmas for evaluating the timestamp parser -/

lemma mapM_pyFloat (l : List (List Char)) :
    l.mapM pyFloat? = (l.mapM pyFloatParts?).map (List.map pyDecVal) := by
  induction l with
  | nil => rfl
  | cons a l ih =>
    simp only [List.mapM_cons, pyFloat?, ih]
    cases pyFloatParts? a <;> cases hl : l.mapM pyFloatParts? <;>
      simp [Option.bind, Option.map]

lemma tsts2_eval (s : String) (ps : List (ℤ × ℕ))
    (h : (splitOnChar ':' s.toList).mapM pyFloatParts? = some ps) :
    Ffmpegthumb2._time_str_to_seconds s =
      some ((ps.map pyDecVal).foldl (fun seconds p => seconds * 60 + p) 0) := by
  unfold Ffmpegthumb2._time_str_to_seconds
  rw [mapM_pyFloat, h]
  rfl

lemma tsts2_none (s : String)
    (h : (splitOnChar ':' s.toList).mapM pyFloatParts? = none) :
    Ffmpegthumb2._time_str_to_seconds s = none := by
  unfold Ffmpegthumb2._time_str_to_seconds
  rw [mapM_pyFloat, h]
  rfl

lemma tstsfree_eq (s : String) :
    Ffmpegthumbfree._time_str_to_seconds s = Ffmpegthumb2._time_str_to_seconds s := rfl

example : (splitOnChar ':' "01:02:03".toList).mapM pyFloatParts? = some [(1,0),(2,0),(3,0)] := by decide

example : Ffmpegthumb2._time_str_to_seconds "01:02:03" = some 3723 := by
  rw [tsts2_eval "01:02:03" [(1,0),(2,0),(3,0)] (by decide)]
  norm_num [pyDecVal]

example : Ffmpegthumb2._time_str_to_seconds "abc" = none := by
  rw [tsts2_none "abc" (by decide)]

/-- C5: the timestamp parser splits its input on `:`, requires every
segment to parse as a real number via `float`, and folds the segments
left-to-right by `total = total*60 + segment`; concretely `"01:02:03"`
parses to 3723, `"02:03"` to 123, `"45"` to 45, and `""` and `"abc"`
yield `None` rather than raising.  Both copies of the parser
(in `ffmpegthumb2` and in `ffmpegthumbfree`) agree. -/
theorem C5_timestamp_parsing :
    Ffmpegthumb2._time_str_to_seconds "01:02:03" = some 3723 ∧
    Ffmpegthumb2._time_str_to_seconds "02:03" = some 123 ∧
    Ffmpegthumb2._time_str_to_seconds "45" = some 45 ∧
    Ffmpegthumb2._time_str_to_seconds "" = none ∧
    Ffmpegthumb2._time_str_to_seconds "abc" = none ∧
    (∀ s, Ffmpegthumb2._time_str_to_seconds s =
      match (splitOnChar ':' s.toList).mapM pyFloat? with
      | none => none
      | some parts => some (parts.foldl (fun seconds p => seconds * 60 + p) 0)) ∧
    (∀ s, Ffmpegthumbfree._time_str_to_seconds s = Ffmpegthumb2._time_str_to_seconds s) := by
  refine ⟨?_, ?_, ?_, ?_, ?_, fun s => rfl, fun s => rfl⟩
  · rw [tsts2_eval "01:02:03" [(1,0),(2,0),(3,0)] (by decide)]; norm_num [pyDecVal]
  · rw [tsts2_eval "02:03" [(2,0),(3,0)] (by decide)]; norm_num [pyDecVal]
  · rw [tsts2_eval "45" [(45,0)] (by decide)]; norm_num [pyDecVal]
  · exact tsts2_none "" (by decide)
  · exact tsts2_none "abc" (by decide)

/-! ### Branch characterizations of the two `get_thumb` variants -/

lemma thumb2_twoStage (world : List Tok → ℤ → ProcOutcome)
    (which : String → Option String) (envOptEnabled : Bool) (sysExecute : String → Bool)
    (vp ip : String) (fr : Option String) (th : ℤ) (o : ℚ) (tmo : ℤ) (eo : Option Bool) (t : ℚ)
    (hv : vp ≠ "") (hi : ip ≠ "") (hw : pyTruthy (which "ffmpeg") = true)
    (hopt : eo.getD envOptEnabled = true)
    (ht : Ffmpegthumb2._time_str_to_seconds (effFrames fr) = some t)
    (hto : o < t) (ho : 0 < o) :
    Ffmpegthumb2.FfmpegHelper2.get_thumb world which envOptEnabled sysExecute
        vp ip fr th o tmo eo =
      (if Ffmpegthumb2.runCommand world (twoStageTokens vp ip (t - o) o th) tmo then
        (true, [Cmd.proc (twoStageTokens vp ip (t - o) o th) tmo])
      else
        (Ffmpegthumb2.runCommand world (optPreciseTokens vp ip (Tok.n t) th) tmo,
         [Cmd.proc (twoStageTokens vp ip (t - o) o th) tmo,
          Cmd.proc (optPreciseTokens vp ip (Tok.n t) th) tmo])) := by
  have hmax : max 0 (t - o) = t - o := max_eq_right (by linarith)
  have hdelta : t - max 0 (t - o) = o := by rw [hmax]; ring
  have hcond : ¬(max 0 (t - o) ≤ 0 ∨ o ≤ 0) := by
    push_neg
    exact ⟨by rw [hmax]; linarith, ho⟩
  unfold Ffmpegthumb2.FfmpegHelper2.get_thumb
  simp only [ht, hw, hopt, Bool.not_true, Bool.false_eq_true, if_false]
  rw [if_neg (by simp [hv, hi])]
  simp only [hmax, hdelta, if_neg hcond]
  cases hok : Ffmpegthumb2.runCommand world (twoStageTokens vp ip (t - o) o th) tmo <;>
    simp [hok]
  · exact ⟨hto, ho⟩
  · rintro (h | h) <;> linarith

lemma thumb2_precise (world : List Tok → ℤ → ProcOutcome)
    (which : String → Option String) (envOptEnabled : Bool) (sysExecute : String → Bool)
    (vp ip : String) (fr : Option String) (th : ℤ) (o : ℚ) (tmo : ℤ) (eo : Option Bool) (t : ℚ)
    (hv : vp ≠ "") (hi : ip ≠ "") (hw : pyTruthy (which "ffmpeg") = true)
    (hopt : eo.getD envOptEnabled = true)
    (ht : Ffmpegthumb2._time_str_to_seconds (effFrames fr) = some t)
    (hcase : t ≤ o ∨ o ≤ 0) :
    Ffmpegthumb2.FfmpegHelper2.get_thumb world which envOptEnabled sysExecute
        vp ip fr th o tmo eo =
      (Ffmpegthumb2.runCommand world (optPreciseTokens vp ip (Tok.n t) th) tmo,
       [Cmd.proc (optPreciseTokens vp ip (Tok.n t) th) tmo]) := by
  have hcond : max 0 (t - o) ≤ 0 ∨ o ≤ 0 := by
    rcases hcase with h | h
    · exact Or.inl (max_le le_rfl (by linarith))
    · exact Or.inr h
  unfold Ffmpegthumb2.FfmpegHelper2.get_thumb
  simp only [ht, hw, hopt, Bool.not_true, Bool.false_eq_true, if_false]
  rw [if_neg (by simp [hv, hi])]
  simp only [if_pos hcond]

lemma thumb2_legacy (world : List Tok → ℤ → ProcOutcome)
    (which : String → Option String) (envOptEnabled : Bool) (sysExecute : String → Bool)
    (vp ip : String) (fr : Option String) (th : ℤ) (o : ℚ) (tmo : ℤ) (eo : Option Bool)
    (hopt : eo.getD envOptEnabled = false) :
    Ffmpegthumb2.FfmpegHelper2.get_thumb world which envOptEnabled sysExecute
        vp ip fr th o tmo eo =
      (if vp = "" ∨ ip = "" then (false, [])
       else if !pyTruthy (which "ffmpeg") then (false, [])
       else (sysExecute (Ffmpegthumb2.legacyThumbCmd vp (effFrames fr) ip),
             [Cmd.legacy (Ffmpegthumb2.legacyThumbCmd vp (effFrames fr) ip)])) := by
  by_cases hp : vp = "" ∨ ip = ""
  · simp [Ffmpegthumb2.FfmpegHelper2.get_thumb, hp]
  · by_cases hw : pyTruthy (which "ffmpeg")
    · simp [Ffmpegthumb2.FfmpegHelper2.get_thumb, hp, hw, hopt]
    · simp [Ffmpegthumb2.FfmpegHelper2.get_thumb, hp, hw]

lemma thumbfree_twoStage (world : List Tok → ℤ → ProcOutcome)
    (which : String → Option String)
    (vp ip : String) (fr : Option String) (th : ℤ) (o : ℚ) (tmo : ℤ) (t : ℚ)
    (hv : vp ≠ "") (hi : ip ≠ "") (hw : pyTruthy (which "ffmpeg") = true)
    (ht : Ffmpegthumbfree._time_str_to_seconds (effFrames fr) = some t)
    (hto : o < t) (ho : 0 < o) :
    Ffmpegthumbfree.FfmpegHelper.get_thumb world which vp ip fr th o tmo =
      (if Ffmpegthumbfree.runCommand world (twoStageTokens vp ip (t - o) o th) tmo then
        (true, [Cmd.proc (twoStageTokens vp ip (t - o) o th) tmo])
      else
        (Ffmpegthumbfree.runCommand world (optPreciseTokens vp ip (Tok.n t) th) tmo,
         [Cmd.proc (twoStageTokens vp ip (t - o) o th) tmo,
          Cmd.proc (optPreciseTokens vp ip (Tok.n t) th) tmo])) := by
  have hmax : max 0 (t - o) = t - o := max_eq_right (by linarith)
  have hdelta : t - max 0 (t - o) = o := by rw [hmax]; ring
  have hcond : ¬(max 0 (t - o) ≤ 0 ∨ o ≤ 0) := by
    push_neg
    exact ⟨by rw [hmax]; linarith, ho⟩
  unfold Ffmpegthumbfree.FfmpegHelper.get_thumb
  simp only [ht, hw, Bool.not_true, Bool.false_eq_true, if_false]
  rw [if_neg (by simp [hv, hi])]
  simp only [hmax, hdelta, if_neg hcond]
  cases hok : Ffmpegthumbfree.runCommand world (twoStageTokens vp ip (t - o) o th) tmo <;>
    simp [hok]
  · exact ⟨hto, ho⟩
  · rintro (h | h) <;> linarith

lemma thumbfree_precise (world : List Tok → ℤ → ProcOutcome)
    (which : String → Option String)
    (vp ip : String) (fr : Option String) (th : ℤ) (o : ℚ) (tmo : ℤ) (t : ℚ)
    (hv : vp ≠ "") (hi : ip ≠ "") (hw : pyTruthy (which "ffmpeg") = true)
    (ht : Ffmpegthumbfree._time_str_to_seconds (effFrames fr) = some t)
    (hcase : t ≤ o ∨ o ≤ 0) :
    Ffmpegthumbfree.FfmpegHelper.get_thumb world which vp ip fr th o tmo =
      (Ffmpegthumbfree.runCommand world (optPreciseTokens vp ip (Tok.n t) th) tmo,
       [Cmd.proc (optPreciseTokens vp ip (Tok.n t) th) tmo]) := by
  have hcond : max 0 (t - o) ≤ 0 ∨ o ≤ 0 := by
    rcases hcase with h | h
    · exact Or.inl (max_le le_rfl (by linarith))
    · exact Or.inr h
  unfold Ffmpegthumbfree.FfmpegHelper.get_thumb
  simp only [ht, hw, Bool.not_true, Bool.false_eq_true, if_false]
  rw [if_neg (by simp [hv, hi])]
  simp only [if_pos hcond]

/-! ### Evaluation of `ssNumVals` on the command shapes -/

lemma ssNumVals_optPrecise_n (vp ip : String) (q : ℚ) (th : ℤ) :
    ssNumVals (optPreciseTokens vp ip (Tok.n q) th) = [q] := rfl

lemma ssNumVals_optPrecise_s (vp ip f : String) (th : ℤ) :
    ssNumVals (optPreciseTokens vp ip (Tok.s f) th) = [] := rfl

lemma ssNumVals_twoStage (vp ip : String) (p d : ℚ) (th : ℤ) :
    ssNumVals (twoStageTokens vp ip p d th) = [p, d] := rfl

/-! ### Early-exit behaviour of the two `get_thumb` variants -/

lemma thumb2_earlyExit (world : List Tok → ℤ → ProcOutcome)
    (which : String → Option String) (envOptEnabled : Bool) (sysExecute : String → Bool)
    (vp ip : String) (fr : Option String) (th : ℤ) (o : ℚ) (tmo : ℤ) (eo : Option Bool)
    (h : vp = "" ∨ ip = "" ∨ pyTruthy (which "ffmpeg") = false) :
    Ffmpegthumb2.FfmpegHelper2.get_thumb world which envOptEnabled sysExecute
        vp ip fr th o tmo eo = (false, []) := by
  rcases h with h | h | h
  · simp [Ffmpegthumb2.FfmpegHelper2.get_thumb, h]
  · simp [Ffmpegthumb2.FfmpegHelper2.get_thumb, h]
  · by_cases hp : vp = "" ∨ ip = ""
    · simp [Ffmpegthumb2.FfmpegHelper2.get_thumb, hp]
    · simp [Ffmpegthumb2.FfmpegHelper2.get_thumb, hp, h]

lemma thumbfree_earlyExit (world : List Tok → ℤ → ProcOutcome)
    (which : String → Option String)
    (vp ip : String) (fr : Option String) (th : ℤ) (o : ℚ) (tmo : ℤ)
    (h : vp = "" ∨ ip = "" ∨ pyTruthy (which "ffmpeg") = false) :
    Ffmpegthumbfree.FfmpegHelper.get_thumb world which vp ip fr th o tmo = (false, []) := by
  rcases h with h | h | h
  · simp [Ffmpegthumbfree.FfmpegHelper.get_thumb, h]
  · simp [Ffmpegthumbfree.FfmpegHelper.get_thumb, h]
  · by_cases hp : vp = "" ∨ ip = ""
    · simp [Ffmpegthumbfree.FfmpegHelper.get_thumb, hp]
    · simp [Ffmpegthumbfree.FfmpegHelper.get_thumb, hp, h]

/-- C1: in `get_thumb`'s optimized path (two-stage branch reached, i.e. the
parsed target `t` and offset `o` satisfy `o < t` and `0 < o`), if the
two-stage command fails (`_run_cmd` returns `False`, which covers non-zero
exit, timeout and launch error), exactly one fallback attempt is made with
the single precise-seek command (`-ss` after `-i` at the parsed seconds
`t`) and the fallback's boolean outcome is the final result; if the
two-stage command succeeds, the trace holds no further command and the
result is success.  Proved for both `FfmpegHelper2.get_thumb`
(`ffmpegthumb2`) and `FfmpegHelper.get_thumb` (`ffmpegthumbfree`). -/
theorem C1_twoStage_fallback_policy (world : List Tok → ℤ → ProcOutcome)
    (which : String → Option String) (envOptEnabled : Bool) (sysExecute : String → Bool)
    (vp ip : String) (fr : Option String) (th : ℤ) (o : ℚ) (tmo : ℤ)
    (eo : Option Bool) (t : ℚ)
    (hv : vp ≠ "") (hi : ip ≠ "") (hw : pyTruthy (which "ffmpeg") = true)
    (hopt : eo.getD envOptEnabled = true)
    (ht : Ffmpegthumb2._time_str_to_seconds (effFrames fr) = some t)
    (hto : o < t) (ho : 0 < o) :
    (Ffmpegthumb2.FfmpegHelper2.get_thumb world which envOptEnabled sysExecute
        vp ip fr th o tmo eo =
      if Ffmpegthumb2.runCommand world (twoStageTokens vp ip (t - o) o th) tmo then
        (true, [Cmd.proc (twoStageTokens vp ip (t - o) o th) tmo])
      else
        (Ffmpegthumb2.runCommand world (optPreciseTokens vp ip (Tok.n t) th) tmo,
         [Cmd.proc (twoStageTokens vp ip (t - o) o th) tmo,
          Cmd.proc (optPreciseTokens vp ip (Tok.n t) th) tmo])) ∧
    (Ffmpegthumbfree.FfmpegHelper.get_thumb world which vp ip fr th o tmo =
      if Ffmpegthumbfree.runCommand world (twoStageTokens vp ip (t - o) o th) tmo then
        (true, [Cmd.proc (twoStageTokens vp ip (t - o) o th) tmo])
      else
        (Ffmpegthumbfree.runCommand world (optPreciseTokens vp ip (Tok.n t) th) tmo,
         [Cmd.proc (twoStageTokens vp ip (t - o) o th) tmo,
          Cmd.proc (optPreciseTokens vp ip (Tok.n t) th) tmo])) :=
  ⟨thumb2_twoStage world which envOptEnabled sysExecute vp ip fr th o tmo eo t
      hv hi hw hopt ht hto ho,
   thumbfree_twoStage world which vp ip fr th o tmo t
      hv hi hw ((tstsfree_eq (effFrames fr)).trans ht) hto ho⟩

/-- Witness for C1: a concrete run where the two-stage command fails
(every process call times out), so exactly one fallback is attempted and
its (failed) outcome is returned. -/
theorem C1_witness :
    Ffmpegthumb2.FfmpegHelper2.get_thumb (fun _ _ => ProcOutcome.timedOut)
        (fun _ => some "x") true (fun _ => false) "v" "i" (some "10") 1 2 30 none =
      (false, [Cmd.proc (twoStageTokens "v" "i" 8 2 1) 30,
               Cmd.proc (optPreciseTokens "v" "i" (Tok.n 10) 1) 30]) := by
  have ht : Ffmpegthumb2._time_str_to_seconds (effFrames (some "10")) = some 10 := by
    have he : effFrames (some "10") = "10" := by decide
    rw [he, tsts2_eval "10" [(10,0)] (by decide)]
    norm_num [pyDecVal]
  have h := (C1_twoStage_fallback_policy (fun _ _ => ProcOutcome.timedOut)
      (fun _ => some "x") true (fun _ => false) "v" "i" (some "10") 1 2 30 none 10
      (by decide) (by decide) (by decide) (by decide) ht (by norm_num) (by norm_num)).1
  rw [h]
  norm_num [Ffmpegthumb2.runCommand]

/-- C2: whenever the parsed target `t` and pre-seek offset `o` satisfy
`t > o > 0`, the two-stage plan built by `get_thumb` (the first command it
executes) has coarse seek `t - o` (first `-ss`, before `-i`) and fine seek
`o` (second `-ss`, after `-i`), and coarse + fine = `t`.  Proved for both
variants. -/
theorem C2_seek_split (world : List Tok → ℤ → ProcOutcome)
    (which : String → Option String) (envOptEnabled : Bool) (sysExecute : String → Bool)
    (vp ip : String) (fr : Option String) (th : ℤ) (o : ℚ) (tmo : ℤ)
    (eo : Option Bool) (t : ℚ)
    (hv : vp ≠ "") (hi : ip ≠ "") (hw : pyTruthy (which "ffmpeg") = true)
    (hopt : eo.getD envOptEnabled = true)
    (ht : Ffmpegthumb2._time_str_to_seconds (effFrames fr) = some t)
    (hto : o < t) (ho : 0 < o) :
    ((Ffmpegthumb2.FfmpegHelper2.get_thumb world which envOptEnabled sysExecute
        vp ip fr th o tmo eo).2.head? =
      some (Cmd.proc (twoStageTokens vp ip (t - o) o th) tmo) ∧
     (Ffmpegthumbfree.FfmpegHelper.get_thumb world which vp ip fr th o tmo).2.head? =
      some (Cmd.proc (twoStageTokens vp ip (t - o) o th) tmo)) ∧
    (t - o) + o = t := by
  constructor
  · constructor
    · rw [thumb2_twoStage world which envOptEnabled sysExecute vp ip fr th o tmo eo t
        hv hi hw hopt ht hto ho]
      cases hb : Ffmpegthumb2.runCommand world (twoStageTokens vp ip (t - o) o th) tmo <;>
        simp [hb]
    · rw [thumbfree_twoStage world which vp ip fr th o tmo t
        hv hi hw ((tstsfree_eq (effFrames fr)).trans ht) hto ho]
      cases hb : Ffmpegthumbfree.runCommand world (twoStageTokens vp ip (t - o) o th) tmo <;>
        simp [hb]
  · ring

/-- Witness for C2, the spec's end-to-end scenario: timestamp `"00:10:05"`
(605 s) and offset 2 give coarse seek 603 and fine seek 2. -/
theorem C2_seek_split_witness :
    (Ffmpegthumb2.FfmpegHelper2.get_thumb (fun _ _ => ProcOutcome.exited 0 "" "")
        (fun _ => some "x") true (fun _ => false) "movie.mkv" "out.jpg"
        (some "00:10:05") 1 2 30 none).2.head? =
      some (Cmd.proc (twoStageTokens "movie.mkv" "out.jpg" 603 2 1) 30) ∧
    (603 : ℚ) + 2 = 605 := by
  have ht : Ffmpegthumb2._time_str_to_seconds (effFrames (some "00:10:05")) = some 605 := by
    have he : effFrames (some "00:10:05") = "00:10:05" := by decide
    rw [he, tsts2_eval "00:10:05" [(0,0),(10,0),(5,0)] (by decide)]
    norm_num [pyDecVal]
  have h := (C2_seek_split (fun _ _ => ProcOutcome.exited 0 "" "") (fun _ => some "x")
      true (fun _ => false) "movie.mkv" "out.jpg" (some "00:10:05") 1 2 30 none 605
      (by decide) (by decide) (by decide) (by decide) ht (by norm_num) (by norm_num)).1.1
  rw [h]
  norm_num

/-- C3: with a parsed target `t`, if `t ≤ o`, or `o ≤ 0`, or the
optimization switch is disabled, `get_thumb` builds a single precise-seek
plan and never a two-stage plan: with optimizations on, the trace is the
one optimized precise-seek command (`-ss` after `-i`, seek value `t`); with
optimizations off (`FfmpegHelper2` only), it is the one legacy command
string, which also places `-ss` after `-i` with the frames string that
parses to `t`.  The `ffmpegthumbfree` variant has no switch and is covered
by the degenerate cases. -/
theorem C3_degenerate_single_precise (world : List Tok → ℤ → ProcOutcome)
    (which : String → Option String) (envOptEnabled : Bool) (sysExecute : String → Bool)
    (vp ip : String) (fr : Option String) (th : ℤ) (o : ℚ) (tmo : ℤ)
    (eo : Option Bool) (t : ℚ)
    (hv : vp ≠ "") (hi : ip ≠ "") (hw : pyTruthy (which "ffmpeg") = true)
    (ht : Ffmpegthumb2._time_str_to_seconds (effFrames fr) = some t) :
    (eo.getD envOptEnabled = false →
      Ffmpegthumb2.FfmpegHelper2.get_thumb world which envOptEnabled sysExecute
          vp ip fr th o tmo eo =
        (sysExecute (Ffmpegthumb2.legacyThumbCmd vp (effFrames fr) ip),
         [Cmd.legacy (Ffmpegthumb2.legacyThumbCmd vp (effFrames fr) ip)])) ∧
    (eo.getD envOptEnabled = true → t ≤ o ∨ o ≤ 0 →
      Ffmpegthumb2.FfmpegHelper2.get_thumb world which envOptEnabled sysExecute
          vp ip fr th o tmo eo =
        (Ffmpegthumb2.runCommand world (optPreciseTokens vp ip (Tok.n t) th) tmo,
         [Cmd.proc (optPreciseTokens vp ip (Tok.n t) th) tmo])) ∧
    (t ≤ o ∨ o ≤ 0 →
      Ffmpegthumbfree.FfmpegHelper.get_thumb world which vp ip fr th o tmo =
        (Ffmpegthumbfree.runCommand world (optPreciseTokens vp ip (Tok.n t) th) tmo,
         [Cmd.proc (optPreciseTokens vp ip (Tok.n t) th) tmo])) := by
  refine ⟨fun hopt => ?_, fun hopt hcase => ?_, fun hcase => ?_⟩
  · rw [thumb2_legacy world which envOptEnabled sysExecute vp ip fr th o tmo eo hopt]
    rw [if_neg (by simp [hv, hi]), if_neg (by simp [hw])]
  · exact thumb2_precise world which envOptEnabled sysExecute vp ip fr th o tmo eo t
      hv hi hw hopt ht hcase
  · exact thumbfree_precise world which vp ip fr th o tmo t
      hv hi hw ((tstsfree_eq (effFrames fr)).trans ht) hcase

/-- Witness for C3: with target 10 s and offset 20 (`t ≤ o`) the optimized
call issues the single precise-seek command; the same call with the switch
off issues the single legacy command string. -/
theorem C3_degenerate_single_precise_witness :
    (Ffmpegthumb2.FfmpegHelper2.get_thumb (fun _ _ => ProcOutcome.exited 0 "" "")
        (fun _ => some "x") true (fun _ => false) "v" "i" (some "10") 1 20 30
        (some true)).2 =
      [Cmd.proc (optPreciseTokens "v" "i" (Tok.n 10) 1) 30] ∧
    (Ffmpegthumb2.FfmpegHelper2.get_thumb (fun _ _ => ProcOutcome.exited 0 "" "")
        (fun _ => some "x") true (fun _ => false) "v" "i" (some "10") 1 20 30
        (some false)).2 =
      [Cmd.legacy (Ffmpegthumb2.legacyThumbCmd "v" "10" "i")] := by
  have ht : Ffmpegthumb2._time_str_to_seconds (effFrames (some "10")) = some 10 := by
    have he : effFrames (some "10") = "10" := by decide
    rw [he, tsts2_eval "10" [(10,0)] (by decide)]
    norm_num [pyDecVal]
  constructor
  · have h := (C3_degenerate_single_precise (fun _ _ => ProcOutcome.exited 0 "" "")
        (fun _ => some "x") true (fun _ => false) "v" "i" (some "10") 1 20 30
        (some true) 10 (by decide) (by decide) (by decide) ht).2.1
      (by decide) (Or.inl (by norm_num))
    rw [h]
  · have h := (C3_degenerate_single_precise (fun _ _ => ProcOutcome.exited 0 "" "")
        (fun _ => some "x") true (fun _ => false) "v" "i" (some "10") 1 20 30
        (some false) 10 (by decide) (by decide) (by decide) ht).1 (by decide)
    rw [h]
    have he : effFrames (some "10") = "10" := by decide
    rw [he]

/-- C4 counterexample: the timestamp parser accepts `"-5"` (Python
`float("-5")` succeeds, value −5), and on that input the optimized
`get_thumb` issues a single precise-seek command whose `-ss` argument is
−5, a negative seek value — refuting the claim that every accepted
timestamp string yields only non-negative `-ss` arguments. -/
theorem C4_counterexample :
    Ffmpegthumb2._time_str_to_seconds "-5" = some (-5) ∧
    (Ffmpegthumb2.FfmpegHelper2.get_thumb (fun _ _ => ProcOutcome.exited 0 "" "")
        (fun _ => some "x") true (fun _ => false) "v" "i" (some "-5") 1 2 30
        (some true)).2 =
      [Cmd.proc (optPreciseTokens "v" "i" (Tok.n (-5)) 1) 30] ∧
    ssNumVals (optPreciseTokens "v" "i" (Tok.n (-5)) 1) = [-5] ∧
    ¬ (0 : ℚ) ≤ -5 := by
  have hp : Ffmpegthumb2._time_str_to_seconds "-5" = some (-5) := by
    rw [tsts2_eval "-5" [(-5, 0)] (by decide)]
    norm_num [pyDecVal]
  refine ⟨hp, ?_, ssNumVals_optPrecise_n _ _ _ _, by norm_num⟩
  have ht : Ffmpegthumb2._time_str_to_seconds (effFrames (some "-5")) = some (-5) := by
    have he : effFrames (some "-5") = "-5" := by decide
    rw [he]
    exact hp
  have h := thumb2_precise (fun _ _ => ProcOutcome.exited 0 "" "") (fun _ => some "x")
      true (fun _ => false) "v" "i" (some "-5") 1 2 30 (some true) (-5)
      (by decide) (by decide) (by decide) (by decide) ht (Or.inl (by norm_num))
  rw [h]

/-- C4 as amended: for every timestamp string that parses to a
NON-NEGATIVE value `t` and every offset, every numeric `-ss` argument of
every command `get_thumb` hands to `_run_cmd` (coarse, fine, single
precise-seek and fallback) is non-negative.  (The original claim, over all
accepted timestamp strings, fails because the parser also accepts strings
with negative value, see the counterexample.) -/
theorem C4_nonneg_seeks_amended (world : List Tok → ℤ → ProcOutcome)
    (which : String → Option String) (envOptEnabled : Bool) (sysExecute : String → Bool)
    (vp ip : String) (fr : Option String) (th : ℤ) (o : ℚ) (tmo : ℤ)
    (eo : Option Bool) (t : ℚ)
    (ht : Ffmpegthumb2._time_str_to_seconds (effFrames fr) = some t)
    (htn : 0 ≤ t) :
    ∀ c ∈ (Ffmpegthumb2.FfmpegHelper2.get_thumb world which envOptEnabled sysExecute
        vp ip fr th o tmo eo).2,
      ∀ toks tmo2, c = Cmd.proc toks tmo2 → ∀ v ∈ ssNumVals toks, 0 ≤ v := by
  by_cases hearly : vp = "" ∨ ip = "" ∨ pyTruthy (which "ffmpeg") = false
  · rw [thumb2_earlyExit world which envOptEnabled sysExecute vp ip fr th o tmo eo hearly]
    simp
  · push_neg at hearly
    obtain ⟨hv, hi, hw⟩ := hearly
    have hw' : pyTruthy (which "ffmpeg") = true := by
      cases hb : pyTruthy (which "ffmpeg")
      · exact absurd hb hw
      · rfl
    cases hopt : eo.getD envOptEnabled
    · rw [thumb2_legacy world which envOptEnabled sysExecute vp ip fr th o tmo eo hopt,
        if_neg (by simp [hv, hi]), if_neg (by simp [hw'])]
      intro c hc toks tmo2 hceq
      simp only [List.mem_singleton] at hc
      subst hc
      exact absurd hceq (by simp)
    · by_cases hcase : t ≤ o ∨ o ≤ 0
      · rw [thumb2_precise world which envOptEnabled sysExecute vp ip fr th o tmo eo t
          hv hi hw' hopt ht hcase]
        intro c hc toks tmo2 hceq v hmem
        simp only [List.mem_singleton] at hc
        subst hc
        obtain ⟨h1, h2⟩ := Cmd.proc.inj hceq.symm
        subst h1
        rw [ssNumVals_optPrecise_n] at hmem
        simp only [List.mem_singleton] at hmem
        subst hmem
        exact htn
      · push_neg at hcase
        obtain ⟨hto, ho⟩ := hcase
        rw [thumb2_twoStage world which envOptEnabled sysExecute vp ip fr th o tmo eo t
          hv hi hw' hopt ht hto ho]
        have hts : ∀ v ∈ ssNumVals (twoStageTokens vp ip (t - o) o th), 0 ≤ v := by
          rw [ssNumVals_twoStage]
          intro v hmem
          simp only [List.mem_cons, List.mem_singleton, List.not_mem_nil, or_false] at hmem
          rcases hmem with h | h <;> subst h
          · linarith
          · linarith
        have hfb : ∀ v ∈ ssNumVals (optPreciseTokens vp ip (Tok.n t) th), 0 ≤ v := by
          rw [ssNumVals_optPrecise_n]
          intro v hmem
          simp only [List.mem_singleton] at hmem
          subst hmem
          exact htn
        cases hb : Ffmpegthumb2.runCommand world (twoStageTokens vp ip (t - o) o th) tmo <;>
          simp only [if_pos, if_neg, Bool.false_eq_true, if_false, if_true]
        · intro c hc toks tmo2 hceq v hmem
          simp only [List.mem_cons, List.mem_singleton, List.not_mem_nil, or_false] at hc
          rcases hc with hc | hc <;> subst hc
          · obtain ⟨h1, h2⟩ := Cmd.proc.inj hceq.symm
            subst h1
            exact hts v hmem
          · obtain ⟨h1, h2⟩ := Cmd.proc.inj hceq.symm
            subst h1
            exact hfb v hmem
        · intro c hc toks tmo2 hceq v hmem
          simp only [List.mem_singleton] at hc
          subst hc
          obtain ⟨h1, h2⟩ := Cmd.proc.inj hceq.symm
          subst h1
          exact hts v hmem

/-- Witness for the amended C4, exercised at target 10 s and offset 20:
the `-ss` value 10 of the issued precise-seek command is non-negative. -/
theorem C4_nonneg_seeks_witness : (0 : ℚ) ≤ 10 := by
  have ht : Ffmpegthumb2._time_str_to_seconds (effFrames (some "10")) = some 10 := by
    have he : effFrames (some "10") = "10" := by decide
    rw [he, tsts2_eval "10" [(10, 0)] (by decide)]
    norm_num [pyDecVal]
  have htr := thumb2_precise (fun _ _ => ProcOutcome.exited 0 "" "") (fun _ => some "x")
      true (fun _ => false) "v" "i" (some "10") 1 20 30 none 10
      (by decide) (by decide) (by decide) (by decide) ht (Or.inl (by norm_num))
  have h := C4_nonneg_seeks_amended (fun _ _ => ProcOutcome.exited 0 "" "")
      (fun _ => some "x") true (fun _ => false) "v" "i" (some "10") 1 20 30 none 10
      ht (by norm_num)
  exact h (Cmd.proc (optPreciseTokens "v" "i" (Tok.n 10) 1) 30) (by rw [htr]; simp)
      (optPreciseTokens "v" "i" (Tok.n 10) 1) 30 rfl 10
      (by rw [ssNumVals_optPrecise_n]; simp)

/-- C6: `get_thumb` returns failure with an empty trace (no process
spawned) when the source path or destination path is empty, and when
`ffmpeg` cannot be resolved on the search path.  Proved for both variants. -/
theorem C6_precondition_failures (world : List Tok → ℤ → ProcOutcome)
    (which : String → Option String) (envOptEnabled : Bool) (sysExecute : String → Bool)
    (vp ip : String) (fr : Option String) (th : ℤ) (o : ℚ) (tmo : ℤ) (eo : Option Bool)
    (h : vp = "" ∨ ip = "" ∨ which "ffmpeg" = none) :
    Ffmpegthumb2.FfmpegHelper2.get_thumb world which envOptEnabled sysExecute
        vp ip fr th o tmo eo = (false, []) ∧
    Ffmpegthumbfree.FfmpegHelper.get_thumb world which vp ip fr th o tmo = (false, []) := by
  have h' : vp = "" ∨ ip = "" ∨ pyTruthy (which "ffmpeg") = false := by
    rcases h with h | h | h
    · exact Or.inl h
    · exact Or.inr (Or.inl h)
    · exact Or.inr (Or.inr (by rw [h]; rfl))
  exact ⟨thumb2_earlyExit world which envOptEnabled sysExecute vp ip fr th o tmo eo h',
         thumbfree_earlyExit world which vp ip fr th o tmo h'⟩

/-- Witness for C6: an empty source path gives `(False, no spawned
process)` even though a well-behaved world is available. -/
theorem C6_precondition_failures_witness :
    Ffmpegthumb2.FfmpegHelper2.get_thumb (fun _ _ => ProcOutcome.exited 0 "" "")
        (fun _ => some "x") true (fun _ => false) "" "i" none 1 2 30 none =
      (false, []) ∧
    Ffmpegthumbfree.FfmpegHelper.get_thumb (fun _ _ => ProcOutcome.exited 0 "" "")
        (fun _ => none) "v" "i" none 1 2 30 = (false, []) := by
  constructor
  · exact (C6_precondition_failures (fun _ _ => ProcOutcome.exited 0 "" "")
      (fun _ => some "x") true (fun _ => false) "" "i" none 1 2 30 none
      (Or.inl rfl)).1
  · exact (C6_precondition_failures (fun _ _ => ProcOutcome.exited 0 "" "")
      (fun _ => none) true (fun _ => false) "v" "i" none 1 2 30 none
      (Or.inr (Or.inr rfl))).2

lemma metafree_eq {α : Type} (world : List Tok → ℤ → ProcOutcome)
    (which : String → Option String) (jsonLoads : String → Option α)
    (vp : String) (tmo : ℤ) :
    Ffmpegthumbfree.FfmpegHelper.get_metadata world which jsonLoads vp tmo =
      Ffmpegthumb2.FfmpegHelper2.get_metadata world which jsonLoads vp tmo := rfl

/-- C7: `get_metadata` is a total function (the embedding returns, never
faults) and yields `some` parsed JSON exactly when the path is non-empty,
`ffprobe` resolves, the process exits with code 0 within the timeout, and
its stdout parses as JSON; every failure mode (empty path, missing tool,
non-zero exit, timeout, launch error, malformed JSON) yields `None`.
The `ffmpegthumbfree` copy is literally the same function. -/
theorem C7_metadata_absent_on_failure {α : Type} (world : List Tok → ℤ → ProcOutcome)
    (which : String → Option String) (jsonLoads : String → Option α)
    (vp : String) (tmo : ℤ) :
    (∀ j : α,
      Ffmpegthumb2.FfmpegHelper2.get_metadata world which jsonLoads vp tmo = some j ↔
        (vp ≠ "" ∧ pyTruthy (which "ffprobe") = true ∧
         ∃ out err, world (metadataTokens vp) tmo = ProcOutcome.exited 0 out err ∧
           jsonLoads out = some j)) ∧
    Ffmpegthumbfree.FfmpegHelper.get_metadata world which jsonLoads vp tmo =
      Ffmpegthumb2.FfmpegHelper2.get_metadata world which jsonLoads vp tmo := by
  refine ⟨fun j => ?_, metafree_eq world which jsonLoads vp tmo⟩
  by_cases hv : vp = ""
  · have hL : Ffmpegthumb2.FfmpegHelper2.get_metadata world which jsonLoads vp tmo = none := by
      unfold Ffmpegthumb2.FfmpegHelper2.get_metadata
      rw [if_pos hv]
    rw [hL]
    constructor
    · intro hj
      cases hj
    · rintro ⟨hcon, -⟩
      exact absurd hv hcon
  · by_cases hw : pyTruthy (which "ffprobe") = true
    · cases hout : world (metadataTokens vp) tmo with
      | exited code out err =>
        have hL : Ffmpegthumb2.FfmpegHelper2.get_metadata world which jsonLoads vp tmo =
            (if code = 0 then jsonLoads out else none) := by
          unfold Ffmpegthumb2.FfmpegHelper2.get_metadata
          rw [if_neg hv, hw]
          simp only [Bool.not_true, Bool.false_eq_true, if_false]
          rw [hout]
        by_cases hc : code = 0
        · rw [hL, if_pos hc]
          subst hc
          constructor
          · intro hj
            exact ⟨hv, hw, out, err, rfl, hj⟩
          · rintro ⟨-, -, o2, e2, he, hj⟩
            obtain ⟨-, ho2, -⟩ := ProcOutcome.exited.inj he
            rw [ho2]
            exact hj
        · rw [hL, if_neg hc]
          constructor
          · intro hj
            cases hj
          · rintro ⟨-, -, o2, e2, he, -⟩
            exact absurd (ProcOutcome.exited.inj he).1 hc
      | timedOut =>
        have hL : Ffmpegthumb2.FfmpegHelper2.get_metadata world which jsonLoads vp tmo = none := by
          unfold Ffmpegthumb2.FfmpegHelper2.get_metadata
          rw [if_neg hv, hw]
          simp only [Bool.not_true, Bool.false_eq_true, if_false]
          rw [hout]
        rw [hL]
        constructor
        · intro hj
          cases hj
        · rintro ⟨-, -, o2, e2, he, -⟩
          cases he
      | excn =>
        have hL : Ffmpegthumb2.FfmpegHelper2.get_metadata world which jsonLoads vp tmo = none := by
          unfold Ffmpegthumb2.FfmpegHelper2.get_metadata
          rw [if_neg hv, hw]
          simp only [Bool.not_true, Bool.false_eq_true, if_false]
          rw [hout]
        rw [hL]
        constructor
        · intro hj
          cases hj
        · rintro ⟨-, -, o2, e2, he, -⟩
          cases he
    · have hw2 : pyTruthy (which "ffprobe") = false := by
        cases hb : pyTruthy (which "ffprobe")
        · rfl
        · exact absurd hb hw
      have hL : Ffmpegthumb2.FfmpegHelper2.get_metadata world which jsonLoads vp tmo = none := by
        unfold Ffmpegthumb2.FfmpegHelper2.get_metadata
        rw [if_neg hv, hw2]
        simp only [Bool.not_false, if_true]
      rw [hL]
      constructor
      · intro hj
        cases hj
      · rintro ⟨-, hcon, -⟩
        exact absurd hcon hw

/-- C8: the shared process runner `_run_cmd` is total with respect to
faults: it returns `True` exactly when the child process exits with code 0
within the timeout, and `False` on non-zero exit, timeout expiry, or any
launch error (the Lean embedding is a total function, mirroring that no
exception escapes the Python wrapper).  Both copies of the runner agree. -/
theorem C8_runner_total :
    ∀ (world : List Tok → ℤ → ProcOutcome) (command : List Tok) (timeout : ℤ),
      (Ffmpegthumb2.runCommand world command timeout = true ↔
        ∃ out err, world command timeout = ProcOutcome.exited 0 out err) ∧
      Ffmpegthumbfree.runCommand world command timeout =
        Ffmpegthumb2.runCommand world command timeout := by
  intro world c tmo
  refine ⟨?_, rfl⟩
  unfold Ffmpegthumb2.runCommand
  cases h : world c tmo with
  | exited code out err =>
    simp only [beq_iff_eq]
    constructor
    · intro hc
      subst hc
      exact ⟨out, err, rfl⟩
    · rintro ⟨o2, e2, he⟩
      exact (ProcOutcome.exited.inj he).1
  | timedOut => simp
  | excn => simp

/-- C9: in `FfmpegHelper2.get_thumb` with the optimization switch
resolving to off, the whole observable behaviour — in particular the
single command that is built and executed — depends only on `video_path`,
`image_path` and `frames`: two calls differing only in `threads`,
`preseek_offset` and `timeout` are identical. -/
theorem C9_legacy_param_independence (world : List Tok → ℤ → ProcOutcome)
    (which : String → Option String) (envOptEnabled : Bool) (sysExecute : String → Bool)
    (vp ip : String) (fr : Option String) (th1 th2 : ℤ) (o1 o2 : ℚ) (tmo1 tmo2 : ℤ)
    (eo : Option Bool)
    (hopt : eo.getD envOptEnabled = false) :
    Ffmpegthumb2.FfmpegHelper2.get_thumb world which envOptEnabled sysExecute
        vp ip fr th1 o1 tmo1 eo =
    Ffmpegthumb2.FfmpegHelper2.get_thumb world which envOptEnabled sysExecute
        vp ip fr th2 o2 tmo2 eo := by
  rw [thumb2_legacy world which envOptEnabled sysExecute vp ip fr th1 o1 tmo1 eo hopt,
    thumb2_legacy world which envOptEnabled sysExecute vp ip fr th2 o2 tmo2 eo hopt]

/-- Witness for C9: with the switch off, wildly different `threads`,
`preseek_offset` and `timeout` values give the same call result. -/
theorem C9_legacy_param_independence_witness :
    Ffmpegthumb2.FfmpegHelper2.get_thumb (fun _ _ => ProcOutcome.exited 0 "" "")
        (fun _ => some "x") false (fun _ => true) "v" "i" (some "10") 1 2 30 none =
    Ffmpegthumb2.FfmpegHelper2.get_thumb (fun _ _ => ProcOutcome.exited 0 "" "")
        (fun _ => some "x") false (fun _ => true) "v" "i" (some "10") 7 99 5 none :=
  C9_legacy_param_independence (fun _ _ => ProcOutcome.exited 0 "" "")
    (fun _ => some "x") false (fun _ => true) "v" "i" (some "10") 1 7 2 99 30 5 none rfl

/-- C10: in `FfmpegHelper2.extract_wav` and
`FfmpegHelper2.extract_subtitle`, the non-optimized branch includes the
`-map` stream-selection token only when the index is truthy (`if index:`),
while the optimized branch includes it whenever the index is not `None`
(`if index is not None:`); consequently, for an index equal to the empty
string, the non-optimized command omits `-map` while the optimized command
includes it for the same arguments. -/
theorem C10_map_token_divergence (world : List Tok → ℤ → ProcOutcome)
    (rawRun : List Tok → Int) (which : String → Option String) (envOptEnabled : Bool)
    (vp ap sp : String) (th tmo : ℤ)
    (hv : vp ≠ "") (ha : ap ≠ "") (hs : sp ≠ "")
    (hw : pyTruthy (which "ffmpeg") = true) :
    ((∀ idx, pyTruthy idx = false →
        (Ffmpegthumb2.FfmpegHelper2.extract_wav world rawRun which envOptEnabled
            vp ap idx th tmo (some false)).2 =
          [Cmd.raw (Ffmpegthumb2.wavPlainTokens vp ap)]) ∧
     (∀ i : String,
        (Ffmpegthumb2.FfmpegHelper2.extract_wav world rawRun which envOptEnabled
            vp ap (some i) th tmo (some true)).2 =
          [Cmd.proc (Ffmpegthumb2.wavOptTokens vp ap (some i) th) tmo] ∧
        Tok.s "-map" ∈ Ffmpegthumb2.wavOptTokens vp ap (some i) th) ∧
     (vp ≠ "-map" → ap ≠ "-map" →
        Tok.s "-map" ∉ Ffmpegthumb2.wavPlainTokens vp ap)) ∧
    ((∀ idx, pyTruthy idx = false →
        (Ffmpegthumb2.FfmpegHelper2.extract_subtitle world rawRun which envOptEnabled
            vp sp idx th tmo (some false)).2 =
          [Cmd.raw (Ffmpegthumb2.subPlainTokens vp sp)]) ∧
     (∀ i : String,
        (Ffmpegthumb2.FfmpegHelper2.extract_subtitle world rawRun which envOptEnabled
            vp sp (some i) th tmo (some true)).2 =
          [Cmd.proc (Ffmpegthumb2.subOptMapTokens vp sp i th) tmo] ∧
        Tok.s "-map" ∈ Ffmpegthumb2.subOptMapTokens vp sp i th) ∧
     (vp ≠ "-map" → sp ≠ "-map" →
        Tok.s "-map" ∉ Ffmpegthumb2.subPlainTokens vp sp)) := by
  refine ⟨⟨fun idx hidx => ?_, fun i => ⟨?_, ?_⟩, fun hv2 ha2 => ?_⟩,
          ⟨fun idx hidx => ?_, fun i => ⟨?_, ?_⟩, fun hv2 hs2 => ?_⟩⟩
  · unfold Ffmpegthumb2.FfmpegHelper2.extract_wav
    rw [if_neg (by simp [hv, ha]), if_neg (by simp [hw])]
    simp [hidx]
  · unfold Ffmpegthumb2.FfmpegHelper2.extract_wav
    rw [if_neg (by simp [hv, ha]), if_neg (by simp [hw])]
    simp
  · simp [Ffmpegthumb2.wavOptTokens]
  · simp [Ffmpegthumb2.wavPlainTokens, Ne.symm hv2, Ne.symm ha2]
  · unfold Ffmpegthumb2.FfmpegHelper2.extract_subtitle
    rw [if_neg (by simp [hv, hs]), if_neg (by simp [hw])]
    simp [hidx]
  · unfold Ffmpegthumb2.FfmpegHelper2.extract_subtitle
    rw [if_neg (by simp [hv, hs]), if_neg (by simp [hw])]
    simp
  · simp [Ffmpegthumb2.subOptMapTokens]
  · simp [Ffmpegthumb2.subPlainTokens, Ne.symm hv2, Ne.symm hs2]

/-- Witness for C10: for the empty-string index, the non-optimized wav
command is the plain one (no `-map`) while the optimized one carries
`-map`; likewise for subtitles. -/
theorem C10_map_token_divergence_witness :
    (Ffmpegthumb2.FfmpegHelper2.extract_wav (fun _ _ => ProcOutcome.exited 0 "" "")
        (fun _ => 0) (fun _ => some "x") true "v" "a" (some "") 1 30 (some false)).2 =
      [Cmd.raw (Ffmpegthumb2.wavPlainTokens "v" "a")] ∧
    (Ffmpegthumb2.FfmpegHelper2.extract_wav (fun _ _ => ProcOutcome.exited 0 "" "")
        (fun _ => 0) (fun _ => some "x") true "v" "a" (some "") 1 30 (some true)).2 =
      [Cmd.proc (Ffmpegthumb2.wavOptTokens "v" "a" (some "") 1) 30] ∧
    Tok.s "-map" ∈ Ffmpegthumb2.wavOptTokens "v" "a" (some "") 1 ∧
    Tok.s "-map" ∉ Ffmpegthumb2.wavPlainTokens "v" "a" := by
  have h := C10_map_token_divergence (fun _ _ => ProcOutcome.exited 0 "" "")
      (fun _ => 0) (fun _ => some "x") true "v" "a" "s" 1 30
      (by decide) (by decide) (by decide) (by decide)
  exact ⟨h.1.1 (some "") (by decide), (h.1.2.1 "").1, (h.1.2.1 "").2,
         h.1.2.2 (by decide) (by decide)⟩
